import Mathlib

/-!
Verification of the `corgi` configuration module (`config/config.go`).

The Go code is shallowly embedded: the process environment (OS identity,
environment variables, PATH resolution) is an explicit `Env` value, the
filesystem is an explicit association list `FS` threaded through every
operation, and fallible operations return `Except GoError α × FS` (the
resulting filesystem is returned even on the error path, mirroring the fact
that Go filesystem mutations performed before a failure persist).

Modelling notes:
* File contents are modelled abstractly by `FileData`: the only reads and
  writes of the config file go through the repository's JSON helper and
  `json.MarshalIndent`, so a file is either empty, a well-formed JSON
  document for the `Config` shape, or malformed.  (`json.MarshalIndent`
  cannot fail on a struct of four strings, so serialization is total.)
* `path.Join` / `path.Dir` are modelled for slash-separated paths; the
  `path.Clean` normalization of already-clean inputs is the identity and
  redundant double-slash cleaning is not modelled.
* Filesystem failures (mkdir / create / write syscall errors, e.g.
  permission errors) are injected through fault sets in `Env`.
-/

/-- The `Config` struct: the four persisted string fields. -/
structure Config where
  SnippetsFile : String
  SnippetsDir : String
  Editor : String
  FilterCmd : String
deriving DecidableEq, Repr

/-- The zero value `Config{}` of the Go struct. -/
def Config.zero : Config := ⟨"", "", "", ""⟩

def DEFAULT_CONFIG_FILE : String := ".corgi/corgi_conf.json"

def DEFAULT_SNIPPETS_DIR : String := ".corgi/snippets"

def DEFAULT_SNIPPETS_FILE : String := ".corgi/snippets.json"

def DEFAULT_EDITOR : String := "vim"

def DEFAULT_FILTER_CMD_FZF : String := "fzf"

def DEFAULT_FILTER_CMD_PECO : String := "peco"

/-- Errors surfaced by the embedded operations. -/
inductive GoError where
  | fsError (op : String) (p : String)
  | notDir (p : String)
  | jsonParseError
  | editorNotFound
  | missingDefaultFilterCmd
deriving DecidableEq, Repr

/-- The sentinel `MissingDefaultFilterCmdError = errors.New("missing default filter cmd")`. -/
def MissingDefaultFilterCmdError : GoError := GoError.missingDefaultFilterCmd

/-- Abstract content of a file (see the modelling notes above). -/
inductive FileData where
  | empty
  | json (c : Config)
  | malformed
deriving DecidableEq, Repr

/-- A filesystem entry: a directory or a file with its content. -/
inductive Entry where
  | dir
  | file (d : FileData)
deriving DecidableEq, Repr

/-- The filesystem: an association list from paths to entries. -/
structure FS where
  entries : List (String × Entry)
deriving DecidableEq, Repr

/-- Lookup in the underlying association list (first match wins). -/
def FS.statList : List (String × Entry) → String → Option Entry
  | [], _ => none
  | kv :: rest, p => if kv.1 = p then some kv.2 else FS.statList rest p

/-- `os.Stat`: the entry at path `p`, if it exists. -/
def FS.stat (fs : FS) (p : String) : Option Entry :=
  FS.statList fs.entries p

/-- Insert-or-replace in the underlying association list. -/
def FS.setEntries : List (String × Entry) → String → Entry → List (String × Entry)
  | [], p, e => [(p, e)]
  | kv :: rest, p, e =>
    if kv.1 = p then (p, e) :: rest else kv :: FS.setEntries rest p e

/-- Map path `p` to entry `e`, replacing any previous entry. -/
def FS.set (fs : FS) (p : String) (e : Entry) : FS :=
  ⟨FS.setEntries fs.entries p e⟩

/-- The process environment: OS identity, environment variables, PATH lookup
table, and fault-injection sets for the filesystem syscalls. -/
structure Env where
  goos : String
  home : String
  xdgConfigHome : String
  editorEnv : Option String
  path : List (String × String)
  mkdirFaults : List String
  createFaults : List String
  writeFaults : List String
deriving DecidableEq, Repr

/-- `exec.LookPath`: resolve an executable name on PATH. -/
def Env.lookPath (env : Env) (n : String) : Option String :=
  match env.path.find? (fun kv => kv.1 == n) with
  | some kv => some kv.2
  | none => none

/-- Split a character list at every slash (structural recursion, so that all
paths evaluate definitionally; semantics of `String.splitOn "/"`). -/
def splitSlashAux : List Char → List Char → List String
  | [], acc => [String.mk acc.reverse]
  | c :: rest, acc =>
    if c = '/' then String.mk acc.reverse :: splitSlashAux rest []
    else splitSlashAux rest (c :: acc)

/-- The slash-separated components of a path. -/
def splitSlash (s : String) : List String := splitSlashAux s.data []

/-- Join components with slashes (semantics of `String.intercalate "/"`). -/
def joinSlash : List String → String
  | [] => ""
  | [s] => s
  | s :: rest => s ++ "/" ++ joinSlash rest

/-- Model of Go `path.Dir` on slash-separated paths. -/
def pathDir (p : String) : String :=
  let parts := splitSlash p
  if parts.length ≤ 1 then "."
  else
    let d := joinSlash parts.dropLast
    if d = "" then "/" else d

/-- Model of Go `path.Join` on two already-clean components. -/
def pathJoin (a b : String) : String :=
  if a = "" then b else if b = "" then a else a ++ "/" ++ b

/-- Model of `os.MkdirAll`, by recursion on the parent chain exactly as the Go
implementation recurses: an existing directory is accepted, an existing
non-directory entry is `ENOTDIR`, otherwise the parent chain is created first
and then the directory itself.  The fuel is bounded by the path length; the
parent of a slash-separated path is strictly shorter, so `p.length + 1` fuel
never runs out. -/
def mkdirAllGo (env : Env) : Nat → FS → String → Except GoError Unit × FS
  | 0, fs, p => (Except.error (GoError.fsError "mkdir" p), fs)
  | fuel + 1, fs, p =>
    match fs.stat p with
    | some Entry.dir => (Except.ok (), fs)
    | some (Entry.file _) => (Except.error (GoError.notDir p), fs)
    | none =>
      if p ∈ env.mkdirFaults then (Except.error (GoError.fsError "mkdir" p), fs)
      else
        let parent := pathDir p
        if parent = "." ∨ parent = "/" ∨ parent = "" ∨ parent = p then
          (Except.ok (), fs.set p Entry.dir)
        else
          match mkdirAllGo env fuel fs parent with
          | (Except.error e, fs1) => (Except.error e, fs1)
          | (Except.ok _, fs1) => (Except.ok (), fs1.set p Entry.dir)

/-- `os.MkdirAll(p, perm)` (permission bits do not influence the modelled state). -/
def mkdirAll (env : Env) (fs : FS) (p : String) : Except GoError Unit × FS :=
  mkdirAllGo env (p.length + 1) fs p

/-- `os.Create`: create an empty file at `p` (only called when `p` does not exist). -/
def createFile (env : Env) (fs : FS) (p : String) : Except GoError Unit × FS :=
  if p ∈ env.createFaults then (Except.error (GoError.fsError "create" p), fs)
  else (Except.ok (), fs.set p (Entry.file FileData.empty))

/-- `ioutil.WriteFile`: truncate-and-replace the content at `p`. -/
def writeFile (env : Env) (fs : FS) (p : String) (d : FileData) : Except GoError Unit × FS :=
  if p ∈ env.writeFaults then (Except.error (GoError.fsError "write" p), fs)
  else (Except.ok (), fs.set p (Entry.file d))

/-- `getOrCreatePath(loc, perm, isDir)`: if `loc` does not exist, create the
directory chain (and, for a file, an empty file).  Does nothing when `loc`
already exists. -/
def getOrCreatePath (env : Env) (fs : FS) (loc : String) (perm : Nat) (isDir : Bool) :
    Except GoError Unit × FS :=
  let _ := perm
  let dirPath := if isDir then loc else pathDir loc
  match fs.stat loc with
  | some _ => (Except.ok (), fs)
  | none =>
    match mkdirAll env fs dirPath with
    | (Except.error e, fs1) => (Except.error e, fs1)
    | (Except.ok _, fs1) =>
      if isDir then (Except.ok (), fs1)
      else createFile env fs1 loc

/-- `GetDefaultConfigHome()`: darwin uses `$HOME`; linux uses
`$XDG_CONFIG_HOME` falling back to `$HOME` when empty; any other OS yields `""`. -/
def GetDefaultConfigHome (env : Env) : String :=
  if env.goos = "darwin" then env.home
  else if env.goos = "linux" then
    (if env.xdgConfigHome = "" then env.home else env.xdgConfigHome)
  else ""

/-- `GetDefaultConfigFile(configHome)`: join the fixed relative config-file
path and ensure it exists. -/
def GetDefaultConfigFile (env : Env) (fs : FS) (configHome : String) :
    Except GoError String × FS :=
  let loc := pathJoin configHome DEFAULT_CONFIG_FILE
  match getOrCreatePath env fs loc 0o755 false with
  | (Except.error e, fs1) => (Except.error e, fs1)
  | (Except.ok _, fs1) => (Except.ok loc, fs1)

/-- `GetDefaultSnippetsDir(configHome)`. -/
def GetDefaultSnippetsDir (env : Env) (fs : FS) (configHome : String) :
    Except GoError String × FS :=
  let loc := pathJoin configHome DEFAULT_SNIPPETS_DIR
  match getOrCreatePath env fs loc 0o755 true with
  | (Except.error e, fs1) => (Except.error e, fs1)
  | (Except.ok _, fs1) => (Except.ok loc, fs1)

/-- `GetDefaultSnippetsFile(configHome)`. -/
def GetDefaultSnippetsFile (env : Env) (fs : FS) (configHome : String) :
    Except GoError String × FS :=
  let loc := pathJoin configHome DEFAULT_SNIPPETS_FILE
  match getOrCreatePath env fs loc 0o755 false with
  | (Except.error e, fs1) => (Except.error e, fs1)
  | (Except.ok _, fs1) => (Except.ok loc, fs1)

/-- `GetDefaultEditor()`: trust `$EDITOR` when set (without validation),
otherwise resolve the fixed fallback editor on PATH. -/
def GetDefaultEditor (env : Env) : Except GoError String :=
  match env.editorEnv with
  | some editorPath => Except.ok editorPath
  | none =>
    match env.lookPath DEFAULT_EDITOR with
    | some editorPath => Except.ok editorPath
    | none => Except.error GoError.editorNotFound

/-- `GetDefaultFilterCmd()`: look up peco, then fzf; the second lookup result
unconditionally overwrites the first (on failure it clears it to `""`); the
sentinel is returned when the surviving result is `""`. -/
def GetDefaultFilterCmd (env : Env) : Except GoError String :=
  let filterCmdPath :=
    match env.lookPath DEFAULT_FILTER_CMD_PECO with
    | some p => p
    | none => ""
  let _ := filterCmdPath
  let filterCmdPath :=
    match env.lookPath DEFAULT_FILTER_CMD_FZF with
    | some p => p
    | none => ""
  if filterCmdPath = "" then Except.error MissingDefaultFilterCmdError
  else Except.ok filterCmdPath

/-- Modelled from the spec: the repository's `util.LoadJsonDataFromFile`
helper (the `util` package is not under `src/`).  Per the spec it reads the
file and deserializes its JSON content into the `Config` shape, tolerating an
empty file as "no data" (the passed-in zero-valued Config is left untouched)
and propagating a parse error on malformed content or a read failure. -/
def LoadJsonDataFromFile (fs : FS) (p : String) : Except GoError Config :=
  match fs.stat p with
  | some (Entry.file FileData.empty) => Except.ok Config.zero
  | some (Entry.file (FileData.json c)) => Except.ok c
  | some (Entry.file FileData.malformed) => Except.error GoError.jsonParseError
  | some Entry.dir => Except.error (GoError.fsError "read" p)
  | none => Except.error (GoError.fsError "read" p)

/-- `IsNew()`: true iff all four fields are the empty string. -/
def Config.IsNew (c : Config) : Bool :=
  c.SnippetsFile == "" && c.SnippetsDir == "" && c.Editor == "" && c.FilterCmd == ""

/-- `Save()`: re-resolve the config home and config file, serialize the Config
as JSON and write it, truncating prior content. -/
def Config.Save (c : Config) (env : Env) (fs : FS) : Except GoError Unit × FS :=
  let configHome := GetDefaultConfigHome env
  match GetDefaultConfigFile env fs configHome with
  | (Except.error e, fs1) => (Except.error e, fs1)
  | (Except.ok confFile, fs1) => writeFile env fs1 confFile (FileData.json c)

/-- `Load()`: resolve the config home and file, parse the file, and when the
parsed Config is new populate the four defaults and persist.  The result of
the final `config.Save()` call is discarded by the source (`config.Save()`
with no error check), which the `.2`-projection mirrors. -/
def Load (env : Env) (fs : FS) : Except GoError Config × FS :=
  let configHome := GetDefaultConfigHome env
  match GetDefaultConfigFile env fs configHome with
  | (Except.error e, fs1) => (Except.error e, fs1)
  | (Except.ok configFile, fs1) =>
    match LoadJsonDataFromFile fs1 configFile with
    | Except.error e => (Except.error e, fs1)
    | Except.ok config =>
      if config.IsNew then
        match GetDefaultSnippetsFile env fs1 configHome with
        | (Except.error e, fs2) => (Except.error e, fs2)
        | (Except.ok snippetsFile, fs2) =>
          match GetDefaultSnippetsDir env fs2 configHome with
          | (Except.error e, fs3) => (Except.error e, fs3)
          | (Except.ok snippetsDir, fs3) =>
            match GetDefaultEditor env with
            | Except.error e => (Except.error e, fs3)
            | Except.ok editor =>
              match GetDefaultFilterCmd env with
              | Except.error e =>
                if e ≠ MissingDefaultFilterCmdError then (Except.error e, fs3)
                else
                  let config : Config :=
                    ⟨snippetsFile, snippetsDir, editor, ""⟩
                  (Except.ok config, (Config.Save config env fs3).2)
              | Except.ok filterCmd =>
                let config : Config :=
                  ⟨snippetsFile, snippetsDir, editor, filterCmd⟩
                (Except.ok config, (Config.Save config env fs3).2)
      else (Except.ok config, fs1)

/-- The config-file path that `Load`/`Save` use in environment `env`. -/
def configFilePath (env : Env) : String :=
  pathJoin (GetDefaultConfigHome env) DEFAULT_CONFIG_FILE

/-- The snippets-file path used during default population. -/
def snippetsFilePath (env : Env) : String :=
  pathJoin (GetDefaultConfigHome env) DEFAULT_SNIPPETS_FILE

/-- The snippets-dir path used during default population. -/
def snippetsDirPath (env : Env) : String :=
  pathJoin (GetDefaultConfigHome env) DEFAULT_SNIPPETS_DIR

/-- The filter-cmd field value produced by default population: the resolved
path on success, `""` when the sentinel is tolerated. -/
def defaultFilterValue (env : Env) : String :=
  match GetDefaultFilterCmd env with
  | Except.ok p => p
  | Except.error _ => ""

/-- The Config produced by default population with editor `ed`. -/
def populatedConfig (env : Env) (ed : String) : Config :=
  ⟨snippetsFilePath env, snippetsDirPath env, ed, defaultFilterValue env⟩

/-- A sane environment: darwin, home `/h`, `$EDITOR` set, peco, fzf and vim on PATH. -/
def envSane : Env :=
  { goos := "darwin", home := "/h", xdgConfigHome := "",
    editorEnv := some "/usr/bin/vi",
    path := [("peco", "/bin/peco"), ("fzf", "/bin/fzf"), ("vim", "/usr/bin/vim")],
    mkdirFaults := [], createFaults := [], writeFaults := [] }

/-- Like `envSane` but only peco resolves on PATH. -/
def envPecoOnly : Env :=
  { envSane with path := [("peco", "/bin/peco")] }

/-- Like `envSane` but neither filter-command candidate resolves on PATH. -/
def envNoFilter : Env :=
  { envSane with path := [("vim", "/usr/bin/vim")] }

/-- Like `envSane` but the write to the config file fails. -/
def envWriteFault : Env :=
  { envSane with writeFaults := ["/h/.corgi/corgi_conf.json"] }

/-- Like `envSane` but with `$EDITOR` unset and no vim on PATH. -/
def envNoEditor : Env :=
  { envSane with editorEnv := none, path := [("peco", "/bin/peco"), ("fzf", "/bin/fzf")] }

/-- A filesystem holding an existing empty config file. -/
def fsConf : FS :=
  ⟨[("/h", Entry.dir), ("/h/.corgi", Entry.dir),
    ("/h/.corgi/corgi_conf.json", Entry.file FileData.empty)]⟩

/-- The fully-populated config of the C6 example document. -/
def cABCD : Config := ⟨"/a", "/b", "/c", "/d"⟩

/-- A partially-populated config: one field set, three empty. -/
def cPartial : Config := ⟨"/a", "", "", ""⟩

/-- A filesystem whose config file holds the C6 example document. -/
def fsConfABCD : FS :=
  ⟨[("/h", Entry.dir), ("/h/.corgi", Entry.dir),
    ("/h/.corgi/corgi_conf.json", Entry.file (FileData.json cABCD))]⟩

/-- A filesystem whose config file holds a partially-populated document. -/
def fsConfPartial : FS :=
  ⟨[("/h", Entry.dir), ("/h/.corgi", Entry.dir),
    ("/h/.corgi/corgi_conf.json", Entry.file (FileData.json cPartial))]⟩

/-- A filesystem whose config file holds malformed JSON. -/
def fsConfBad : FS :=
  ⟨[("/h", Entry.dir), ("/h/.corgi", Entry.dir),
    ("/h/.corgi/corgi_conf.json", Entry.file FileData.malformed)]⟩

theorem FS.statList_set_self (l : List (String × Entry)) (p : String) (e : Entry) :
    FS.statList (FS.setEntries l p e) p = some e := by
  induction l with
  | nil => simp [FS.setEntries, FS.statList]
  | cons kv rest ih =>
    by_cases h : kv.1 = p
    · simp [FS.setEntries, h, FS.statList]
    · simp [FS.setEntries, h, FS.statList, ih]

theorem FS.statList_set_other (l : List (String × Entry)) (p q : String) (e : Entry)
    (h : q ≠ p) :
    FS.statList (FS.setEntries l p e) q = FS.statList l q := by
  induction l with
  | nil => simp [FS.setEntries, FS.statList, Ne.symm h]
  | cons kv rest ih =>
    by_cases hk : kv.1 = p
    · subst hk
      simp [FS.setEntries, FS.statList, Ne.symm h]
    · simp [FS.setEntries, hk, FS.statList, ih]

theorem FS.stat_set_self (fs : FS) (p : String) (e : Entry) :
    (fs.set p e).stat p = some e :=
  FS.statList_set_self fs.entries p e

theorem FS.stat_set_other (fs : FS) (p q : String) (e : Entry) (h : q ≠ p) :
    (fs.set p e).stat q = fs.stat q :=
  FS.statList_set_other fs.entries p q e h

theorem mkdirAllGo_preserves (env : Env) (fuel : Nat) :
    ∀ (fs : FS) (p q : String) (en : Entry), fs.stat q = some en →
      ((mkdirAllGo env fuel fs p).2).stat q = some en := by
  induction fuel with
  | zero => intro fs p q en h; simpa [mkdirAllGo] using h
  | succ n ih =>
    intro fs p q en h
    unfold mkdirAllGo
    cases hs : fs.stat p with
    | some e =>
      cases e with
      | dir => simpa [hs] using h
      | file d => simpa [hs] using h
    | none =>
      have hqp : q ≠ p := by
        intro hqp; rw [hqp, hs] at h; exact Option.noConfusion h
      by_cases hm : p ∈ env.mkdirFaults
      · simpa [hs, hm] using h
      · by_cases hb : pathDir p = "." ∨ pathDir p = "/" ∨ pathDir p = "" ∨ pathDir p = p
        · simpa [hs, hm, hb, FS.stat_set_other _ _ _ _ hqp] using h
        · rcases hr : mkdirAllGo env n fs (pathDir p) with ⟨r, fs1⟩
          have h1 : fs1.stat q = some en := by
            have h2 := ih fs (pathDir p) q en h
            rw [hr] at h2; exact h2
          cases r with
          | error e => simpa [hs, hm, hb, hr] using h1
          | ok u => simpa [hs, hm, hb, hr, FS.stat_set_other _ _ _ _ hqp] using h1

theorem mkdirAll_preserves (env : Env) (fs : FS) (p q : String) (en : Entry)
    (h : fs.stat q = some en) :
    ((mkdirAll env fs p).2).stat q = some en :=
  mkdirAllGo_preserves env (p.length + 1) fs p q en h

theorem getOrCreatePath_preserves (env : Env) (fs : FS) (loc : String) (perm : Nat)
    (isDir : Bool) (q : String) (en : Entry) (h : fs.stat q = some en) :
    ((getOrCreatePath env fs loc perm isDir).2).stat q = some en := by
  unfold getOrCreatePath
  cases hs : fs.stat loc with
  | some e => simpa [hs] using h
  | none =>
    have hql : q ≠ loc := by
      intro hql; rw [hql, hs] at h; exact Option.noConfusion h
    cases isDir with
    | true =>
      rcases hm : mkdirAll env fs loc with ⟨r, fs1⟩
      have h1 : fs1.stat q = some en := by
        have h2 := mkdirAll_preserves env fs loc q en h
        rw [hm] at h2; exact h2
      cases r with
      | error e => simpa [hs, hm] using h1
      | ok u => simpa [hs, hm] using h1
    | false =>
      rcases hm : mkdirAll env fs (pathDir loc) with ⟨r, fs1⟩
      have h1 : fs1.stat q = some en := by
        have h2 := mkdirAll_preserves env fs (pathDir loc) q en h
        rw [hm] at h2; exact h2
      cases r with
      | error e => simpa [hs, hm] using h1
      | ok u =>
        by_cases hc : loc ∈ env.createFaults
        · simpa [hs, hm, createFile, hc] using h1
        · simpa [hs, hm, createFile, hc, FS.stat_set_other _ _ _ _ hql] using h1

theorem getOrCreatePath_of_exists (env : Env) (fs : FS) (loc : String) (perm : Nat)
    (isDir : Bool) {en : Entry} (h : fs.stat loc = some en) :
    getOrCreatePath env fs loc perm isDir = (Except.ok (), fs) := by
  unfold getOrCreatePath
  simp [h]

theorem getDefaultConfigFile_of_exists (env : Env) (fs : FS) (configHome : String)
    {en : Entry} (h : fs.stat (pathJoin configHome DEFAULT_CONFIG_FILE) = some en) :
    GetDefaultConfigFile env fs configHome
      = (Except.ok (pathJoin configHome DEFAULT_CONFIG_FILE), fs) := by
  simp only [GetDefaultConfigFile]
  rw [getOrCreatePath_of_exists env fs _ 0o755 false h]

theorem getDefaultConfigFile_ok_shape (env : Env) (fs fs1 : FS) (configHome v : String)
    (h : GetDefaultConfigFile env fs configHome = (Except.ok v, fs1)) :
    v = pathJoin configHome DEFAULT_CONFIG_FILE := by
  simp only [GetDefaultConfigFile] at h
  rcases hg : getOrCreatePath env fs (pathJoin configHome DEFAULT_CONFIG_FILE) 0o755 false
    with ⟨r, fs0⟩
  rw [hg] at h
  cases r with
  | error e => simp at h
  | ok u => simp at h; exact h.1.symm

theorem mkdirAll_ok_stat (env : Env) (fs fs1 : FS) (p : String) (u : Unit)
    (h : mkdirAll env fs p = (Except.ok u, fs1)) : fs1.stat p = some Entry.dir := by
  simp only [mkdirAll, mkdirAllGo] at h
  cases hs : fs.stat p with
  | some e =>
    cases e with
    | dir =>
      rw [hs] at h
      simp at h
      rw [← h]
      exact hs
    | file d => rw [hs] at h; simp at h
  | none =>
    rw [hs] at h
    by_cases hm : p ∈ env.mkdirFaults
    · simp [hm] at h
    · by_cases hb : pathDir p = "." ∨ pathDir p = "/" ∨ pathDir p = "" ∨ pathDir p = p
      · simp [hm, hb] at h
        rw [← h]
        exact FS.stat_set_self fs p Entry.dir
      · rcases hr : mkdirAllGo env p.length fs (pathDir p) with ⟨r, fs2⟩
        rw [hr] at h
        cases r with
        | error e => simp [hm, hb] at h
        | ok u2 =>
          simp [hm, hb] at h
          rw [← h]
          exact FS.stat_set_self fs2 p Entry.dir

theorem getOrCreatePath_ok_stat (env : Env) (fs fs1 : FS) (loc : String) (perm : Nat)
    (isDir : Bool) (u : Unit)
    (h : getOrCreatePath env fs loc perm isDir = (Except.ok u, fs1)) :
    ∃ en, fs1.stat loc = some en := by
  cases isDir with
  | true =>
    simp only [getOrCreatePath, if_true, Bool.false_eq_true, if_false] at h
    cases hs : fs.stat loc with
    | some e =>
      rw [hs] at h
      simp at h
      exact ⟨e, by rw [← h]; exact hs⟩
    | none =>
      rw [hs] at h
      rcases hm : mkdirAll env fs loc with ⟨r, fs2⟩
      rw [hm] at h
      cases r with
      | error e => simp at h
      | ok u2 =>
        simp at h
        exact ⟨Entry.dir, by rw [← h]; exact mkdirAll_ok_stat env fs fs2 loc u2 hm⟩
  | false =>
    simp only [getOrCreatePath, if_true, Bool.false_eq_true, if_false] at h
    cases hs : fs.stat loc with
    | some e =>
      rw [hs] at h
      simp at h
      exact ⟨e, by rw [← h]; exact hs⟩
    | none =>
      rw [hs] at h
      rcases hm : mkdirAll env fs (pathDir loc) with ⟨r, fs2⟩
      rw [hm] at h
      cases r with
      | error e => simp at h
      | ok u2 =>
        simp [createFile] at h
        by_cases hc : loc ∈ env.createFaults
        · simp [hc] at h
        · simp [hc] at h
          exact ⟨Entry.file FileData.empty,
            by rw [← h]; exact FS.stat_set_self fs2 loc (Entry.file FileData.empty)⟩

theorem getDefaultSnippetsFile_preserves (env : Env) (fs : FS) (configHome q : String)
    (en : Entry) (h : fs.stat q = some en) :
    ((GetDefaultSnippetsFile env fs configHome).2).stat q = some en := by
  unfold GetDefaultSnippetsFile
  rcases hg : getOrCreatePath env fs (pathJoin configHome DEFAULT_SNIPPETS_FILE) 0o755 false
    with ⟨r, fs1⟩
  have h1 : fs1.stat q = some en := by
    have h2 := getOrCreatePath_preserves env fs
      (pathJoin configHome DEFAULT_SNIPPETS_FILE) 0o755 false q en h
    rw [hg] at h2; exact h2
  cases r with
  | error e => simpa [hg] using h1
  | ok u => simpa [hg] using h1

theorem getDefaultSnippetsDir_preserves (env : Env) (fs : FS) (configHome q : String)
    (en : Entry) (h : fs.stat q = some en) :
    ((GetDefaultSnippetsDir env fs configHome).2).stat q = some en := by
  unfold GetDefaultSnippetsDir
  rcases hg : getOrCreatePath env fs (pathJoin configHome DEFAULT_SNIPPETS_DIR) 0o755 true
    with ⟨r, fs1⟩
  have h1 : fs1.stat q = some en := by
    have h2 := getOrCreatePath_preserves env fs
      (pathJoin configHome DEFAULT_SNIPPETS_DIR) 0o755 true q en h
    rw [hg] at h2; exact h2
  cases r with
  | error e => simpa [hg] using h1
  | ok u => simpa [hg] using h1

theorem getDefaultFilterCmd_error_sentinel (env : Env) (e : GoError)
    (h : GetDefaultFilterCmd env = Except.error e) :
    e = GoError.missingDefaultFilterCmd := by
  unfold GetDefaultFilterCmd at h
  rcases hfz : env.lookPath DEFAULT_FILTER_CMD_FZF with _ | p
  · rw [hfz] at h
    simp [MissingDefaultFilterCmdError] at h
    exact h.symm
  · rw [hfz] at h
    by_cases hp : p = ""
    · simp [hp, MissingDefaultFilterCmdError] at h
      exact h.symm
    · simp [hp] at h

theorem Save_writes (c : Config) (env : Env) (fs : FS) {en : Entry}
    (h : fs.stat (pathJoin (GetDefaultConfigHome env) DEFAULT_CONFIG_FILE) = some en)
    (hw : pathJoin (GetDefaultConfigHome env) DEFAULT_CONFIG_FILE ∉ env.writeFaults) :
    Config.Save c env fs
      = (Except.ok (), fs.set (pathJoin (GetDefaultConfigHome env) DEFAULT_CONFIG_FILE)
          (Entry.file (FileData.json c))) := by
  simp only [Config.Save]
  rw [getDefaultConfigFile_of_exists env fs (GetDefaultConfigHome env) h]
  simp [writeFile, hw]

theorem Save_ok_stat (c : Config) (env : Env) (fs : FS)
    (h : (Config.Save c env fs).1 = Except.ok ()) :
    ((Config.Save c env fs).2).stat (pathJoin (GetDefaultConfigHome env) DEFAULT_CONFIG_FILE)
      = some (Entry.file (FileData.json c)) := by
  simp only [Config.Save] at h ⊢
  rcases hg : GetDefaultConfigFile env fs (GetDefaultConfigHome env) with ⟨r, fs1⟩
  cases r with
  | error e =>
    simp only [hg] at h
    simp at h
  | ok confFile =>
    have hshape := getDefaultConfigFile_ok_shape env fs fs1 (GetDefaultConfigHome env) confFile hg
    subst hshape
    simp only [hg] at h ⊢
    simp [writeFile] at h ⊢
    by_cases hw : pathJoin (GetDefaultConfigHome env) DEFAULT_CONFIG_FILE ∈ env.writeFaults
    · simp [hw] at h
    · simp [hw]
      exact FS.stat_set_self fs1 _ _

theorem pathJoin_ne_empty (a b : String) (hb : b ≠ "") : pathJoin a b ≠ "" := by
  unfold pathJoin
  by_cases ha : a = ""
  · simpa [ha] using hb
  · by_cases hb2 : b = ""
    · exact absurd hb2 hb
    · simp only [ha, hb2, if_false]
      intro hcontra
      have hlen := congrArg String.length hcontra
      rw [String.length_append, String.length_append] at hlen
      have h1 : ("/" : String).length = 1 := rfl
      have h2 : ("" : String).length = 0 := rfl
      rw [h1, h2] at hlen
      omega

theorem Load_not_new (env : Env) (fs : FS) (c : Config)
    (hnew : c.IsNew = false)
    (hf : fs.stat (pathJoin (GetDefaultConfigHome env) DEFAULT_CONFIG_FILE)
        = some (Entry.file (FileData.json c))) :
    Load env fs = (Except.ok c, fs) := by
  have hcf := getDefaultConfigFile_of_exists env fs (GetDefaultConfigHome env) hf
  have hlj : LoadJsonDataFromFile fs (pathJoin (GetDefaultConfigHome env) DEFAULT_CONFIG_FILE)
      = Except.ok c := by
    unfold LoadJsonDataFromFile
    rw [hf]
  simp only [Load]
  rw [hcf]
  simp [hlj, hnew]

theorem Load_new_populates (env : Env) (fs : FS) (ed : String)
    (h0 : fs.stat (pathJoin (GetDefaultConfigHome env) DEFAULT_CONFIG_FILE)
        = some (Entry.file FileData.empty))
    (hsf : (GetDefaultSnippetsFile env fs (GetDefaultConfigHome env)).1
        = Except.ok (pathJoin (GetDefaultConfigHome env) DEFAULT_SNIPPETS_FILE))
    (hsd : (GetDefaultSnippetsDir env
          (GetDefaultSnippetsFile env fs (GetDefaultConfigHome env)).2
          (GetDefaultConfigHome env)).1
        = Except.ok (pathJoin (GetDefaultConfigHome env) DEFAULT_SNIPPETS_DIR))
    (hed : GetDefaultEditor env = Except.ok ed) :
    Load env fs
      = (Except.ok (populatedConfig env ed),
         (Config.Save (populatedConfig env ed) env
           (GetDefaultSnippetsDir env
             (GetDefaultSnippetsFile env fs (GetDefaultConfigHome env)).2
             (GetDefaultConfigHome env)).2).2) := by
  have hcf := getDefaultConfigFile_of_exists env fs (GetDefaultConfigHome env) h0
  have hlj : LoadJsonDataFromFile fs (pathJoin (GetDefaultConfigHome env) DEFAULT_CONFIG_FILE)
      = Except.ok Config.zero := by
    unfold LoadJsonDataFromFile
    rw [h0]
  rcases hSF : GetDefaultSnippetsFile env fs (GetDefaultConfigHome env) with ⟨rsf, fs2⟩
  simp only [hSF] at hsf hsd ⊢
  subst hsf
  rcases hSD : GetDefaultSnippetsDir env fs2 (GetDefaultConfigHome env) with ⟨rsd, fs3⟩
  simp only [hSD] at hsd ⊢
  subst hsd
  have hz : Config.zero.IsNew = true := rfl
  simp only [Load]
  rw [hcf]
  simp only [hlj, hz, if_true]
  simp only [hSF, hSD, hed]
  cases hfc : GetDefaultFilterCmd env with
  | error e =>
    have hes := getDefaultFilterCmd_error_sentinel env e hfc
    subst hes
    simp [populatedConfig, snippetsFilePath, snippetsDirPath, defaultFilterValue,
      MissingDefaultFilterCmdError, hfc]
  | ok p =>
    simp [populatedConfig, snippetsFilePath, snippetsDirPath, defaultFilterValue, hfc]

theorem isNew_false_of_snippetsFile_ne (c : Config) (h : c.SnippetsFile ≠ "") :
    c.IsNew = false := by
  unfold Config.IsNew
  cases hbeq : c.SnippetsFile == "" with
  | true => exact absurd (eq_of_beq hbeq) h
  | false => simp

theorem Save_write_fault (c : Config) (env : Env) (fs : FS) {en : Entry}
    (h : fs.stat (pathJoin (GetDefaultConfigHome env) DEFAULT_CONFIG_FILE) = some en)
    (hw : pathJoin (GetDefaultConfigHome env) DEFAULT_CONFIG_FILE ∈ env.writeFaults) :
    Config.Save c env fs
      = (Except.error
          (GoError.fsError "write" (pathJoin (GetDefaultConfigHome env) DEFAULT_CONFIG_FILE)),
         fs) := by
  simp only [Config.Save]
  rw [getDefaultConfigFile_of_exists env fs (GetDefaultConfigHome env) h]
  simp [writeFile, hw]

/-- C7: `GetDefaultConfigHome` returns the home directory on darwin; on linux it
returns the XDG config-home variable, falling back to the home directory when that
variable is empty/unset; for every other OS identity it returns the empty string.
It always returns a string: there is no error path. -/
theorem getDefaultConfigHome_policy (env : Env) :
    (env.goos = "darwin" → GetDefaultConfigHome env = env.home) ∧
    (env.goos = "linux" →
      GetDefaultConfigHome env
        = (if env.xdgConfigHome = "" then env.home else env.xdgConfigHome)) ∧
    (env.goos ≠ "darwin" → env.goos ≠ "linux" → GetDefaultConfigHome env = "") := by
  refine ⟨fun h => ?_, fun h => ?_, fun h1 h2 => ?_⟩
  · simp [GetDefaultConfigHome, h]
  · simp [GetDefaultConfigHome, h]
  · simp [GetDefaultConfigHome, h1, h2]

/-- C7 witness: the linux branch with the XDG variable set. -/
theorem getDefaultConfigHome_policy_witness :
    GetDefaultConfigHome { envSane with goos := "linux", xdgConfigHome := "/xdg" }
      = "/xdg" := by
  have h := (getDefaultConfigHome_policy
    { envSane with goos := "linux", xdgConfigHome := "/xdg" }).2.1 rfl
  rw [if_neg (by decide)] at h
  exact h

/-- C8: `getOrCreatePath` is idempotent: after a successful call, a second call with
the same arguments succeeds, changes nothing, and in particular it does nothing
whenever the path already exists. -/
theorem getOrCreatePath_idempotent (env : Env) (fs fs1 : FS) (loc : String) (perm : Nat)
    (isDir : Bool) :
    (getOrCreatePath env fs loc perm isDir = (Except.ok (), fs1) →
      getOrCreatePath env fs1 loc perm isDir = (Except.ok (), fs1)) ∧
    (∀ en, fs.stat loc = some en →
      getOrCreatePath env fs loc perm isDir = (Except.ok (), fs)) := by
  constructor
  · intro h
    obtain ⟨en, hen⟩ := getOrCreatePath_ok_stat env fs fs1 loc perm isDir () h
    exact getOrCreatePath_of_exists env fs1 loc perm isDir hen
  · intro en hen
    exact getOrCreatePath_of_exists env fs loc perm isDir hen

/-- C8 witness: creating `/p/q` from the empty filesystem, the second call returns
the same state with no error. -/
theorem getOrCreatePath_idempotent_witness :
    getOrCreatePath envSane ⟨[("/p", Entry.dir), ("/p/q", Entry.file FileData.empty)]⟩
        "/p/q" 0o755 false
      = (Except.ok (), ⟨[("/p", Entry.dir), ("/p/q", Entry.file FileData.empty)]⟩) :=
  (getOrCreatePath_idempotent envSane ⟨[]⟩
    ⟨[("/p", Entry.dir), ("/p/q", Entry.file FileData.empty)]⟩ "/p/q" 0o755 false).1 rfl

/-- C2 counterexample: with peco on PATH and fzf absent, at least one candidate
resolves, yet `GetDefaultFilterCmd` returns the sentinel. -/
theorem getDefaultFilterCmd_c2_counterexample :
    envPecoOnly.lookPath DEFAULT_FILTER_CMD_PECO = some "/bin/peco" ∧
    GetDefaultFilterCmd envPecoOnly = Except.error MissingDefaultFilterCmdError :=
  ⟨rfl, rfl⟩

/-- C2 amended: the second lookup (fzf) alone decides the result, because its
outcome unconditionally overwrites the peco result: the sentinel is returned exactly
when fzf does not resolve (the peco result being discarded either way), and when fzf
resolves to a non-empty path that path is returned. -/
theorem getDefaultFilterCmd_fzf_decides (env : Env) :
    (env.lookPath DEFAULT_FILTER_CMD_FZF = none →
      GetDefaultFilterCmd env = Except.error MissingDefaultFilterCmdError) ∧
    (∀ p, env.lookPath DEFAULT_FILTER_CMD_FZF = some p → p ≠ "" →
      GetDefaultFilterCmd env = Except.ok p) := by
  constructor
  · intro h
    simp only [GetDefaultFilterCmd, h]
    simp
  · intro p h hp
    simp only [GetDefaultFilterCmd, h]
    rw [if_neg hp]

/-- C2 witness (for the amended claim): with no fzf on PATH the sentinel comes back. -/
theorem getDefaultFilterCmd_fzf_decides_witness :
    GetDefaultFilterCmd envNoFilter = Except.error MissingDefaultFilterCmdError :=
  (getDefaultFilterCmd_fzf_decides envNoFilter).1 rfl

/-- C6: when the config file parses to a Config with all four fields non-empty,
Load returns exactly that Config and leaves the filesystem (in particular the
config file) completely unchanged: no default population, no write. -/
theorem load_fully_populated_no_write (env : Env) (fs : FS) (c : Config)
    (h1 : c.SnippetsFile ≠ "") (h2 : c.SnippetsDir ≠ "") (h3 : c.Editor ≠ "")
    (h4 : c.FilterCmd ≠ "")
    (hf : fs.stat (configFilePath env) = some (Entry.file (FileData.json c))) :
    Load env fs = (Except.ok c, fs) := by
  have hnew : c.IsNew = false := isNew_false_of_snippetsFile_ne c h1
  unfold configFilePath at hf
  exact Load_not_new env fs c hnew hf

/-- C6 witness: the example document with fields `/a`, `/b`, `/c`, `/d`. -/
theorem load_fully_populated_no_write_witness :
    Load envSane fsConfABCD = (Except.ok cABCD, fsConfABCD) :=
  load_fully_populated_no_write envSane fsConfABCD cABCD
    (by decide) (by decide) (by decide) (by decide) rfl

/-- C10: default population happens only when all four parsed fields are empty: a
partially-populated parsed Config (not new, yet with some empty field) short-circuits
Load, which returns it unchanged with no population and no save. -/
theorem load_partial_config_short_circuits (env : Env) (fs : FS) (c : Config)
    (hne : c.IsNew = false)
    (hsome : c.SnippetsFile = "" ∨ c.SnippetsDir = "" ∨ c.Editor = "" ∨ c.FilterCmd = "")
    (hf : fs.stat (configFilePath env) = some (Entry.file (FileData.json c))) :
    Load env fs = (Except.ok c, fs) := by
  unfold configFilePath at hf
  exact Load_not_new env fs c hne hf

/-- C10 witness: a Config with only the snippets file set is returned unchanged. -/
theorem load_partial_config_short_circuits_witness :
    Load envSane fsConfPartial = (Except.ok cPartial, fsConfPartial) :=
  load_partial_config_short_circuits envSane fsConfPartial cPartial
    (by decide) (Or.inr (Or.inl rfl)) rfl

/-- C3 counterexample: saving the all-empty Config and reloading does not round-trip:
Load sees a new Config and performs default population, so the loaded fields differ
from the saved ones. -/
theorem save_load_zero_not_roundtrip :
    (Config.Save Config.zero envSane fsConf).1 = Except.ok () ∧
    (Load envSane (Config.Save Config.zero envSane fsConf).2).1
      = Except.ok (populatedConfig envSane "/usr/bin/vi") ∧
    (populatedConfig envSane "/usr/bin/vi").SnippetsFile ≠ Config.zero.SnippetsFile :=
  ⟨rfl, rfl, by decide⟩

/-- C3 amended: for every Config with at least one non-empty field, a successful
Save followed by Load (same environment) round-trips all four fields exactly. -/
theorem save_then_load_roundtrip (c : Config) (env : Env) (fs : FS)
    (hnew : c.IsNew = false)
    (hsave : (Config.Save c env fs).1 = Except.ok ()) :
    (Load env (Config.Save c env fs).2).1 = Except.ok c := by
  have hstat := Save_ok_stat c env fs hsave
  have hload := Load_not_new env (Config.Save c env fs).2 c hnew hstat
  rw [hload]

/-- C3 witness (for the amended claim): the `/a`,`/b`,`/c`,`/d` Config round-trips. -/
theorem save_then_load_roundtrip_witness :
    cABCD.IsNew = false ∧ (Config.Save cABCD envSane fsConf).1 = Except.ok () ∧
    (Load envSane (Config.Save cABCD envSane fsConf).2).1 = Except.ok cABCD :=
  ⟨by decide, rfl, save_then_load_roundtrip cABCD envSane fsConf (by decide) rfl⟩

/-- C4: with an empty config file on disk, and an environment in which the
population steps succeed, the editor and filter command resolve to non-empty
strings, and the config file is writable, Load returns a Config with all four
fields populated (non-empty) on which IsNew is false, and afterwards the config
file on disk holds exactly those four values. -/
theorem load_empty_file_populates (env : Env) (fs : FS) (ed fc : String)
    (h0 : fs.stat (configFilePath env) = some (Entry.file FileData.empty))
    (hsf : (GetDefaultSnippetsFile env fs (GetDefaultConfigHome env)).1
        = Except.ok (snippetsFilePath env))
    (hsd : (GetDefaultSnippetsDir env
          (GetDefaultSnippetsFile env fs (GetDefaultConfigHome env)).2
          (GetDefaultConfigHome env)).1 = Except.ok (snippetsDirPath env))
    (hed : GetDefaultEditor env = Except.ok ed) (hedne : ed ≠ "")
    (hfc : GetDefaultFilterCmd env = Except.ok fc) (hfcne : fc ≠ "")
    (hw : configFilePath env ∉ env.writeFaults) :
    (Load env fs).1 = Except.ok (populatedConfig env ed) ∧
    (populatedConfig env ed).SnippetsFile ≠ "" ∧
    (populatedConfig env ed).SnippetsDir ≠ "" ∧
    (populatedConfig env ed).Editor ≠ "" ∧
    (populatedConfig env ed).FilterCmd ≠ "" ∧
    (populatedConfig env ed).IsNew = false ∧
    ((Load env fs).2).stat (configFilePath env)
      = some (Entry.file (FileData.json (populatedConfig env ed))) := by
  unfold configFilePath at h0 hw ⊢
  unfold snippetsFilePath at hsf
  unfold snippetsDirPath at hsd
  have hload := Load_new_populates env fs ed h0 hsf hsd hed
  have hsfne : (populatedConfig env ed).SnippetsFile ≠ "" := by
    show snippetsFilePath env ≠ ""
    unfold snippetsFilePath
    exact pathJoin_ne_empty _ _ (by decide)
  have hsdne : (populatedConfig env ed).SnippetsDir ≠ "" := by
    show snippetsDirPath env ≠ ""
    unfold snippetsDirPath
    exact pathJoin_ne_empty _ _ (by decide)
  have hfcv : (populatedConfig env ed).FilterCmd = fc := by
    show defaultFilterValue env = fc
    unfold defaultFilterValue
    rw [hfc]
  have hpre : ((GetDefaultSnippetsDir env
        (GetDefaultSnippetsFile env fs (GetDefaultConfigHome env)).2
        (GetDefaultConfigHome env)).2).stat
        (pathJoin (GetDefaultConfigHome env) DEFAULT_CONFIG_FILE)
      = some (Entry.file FileData.empty) :=
    getDefaultSnippetsDir_preserves env _ (GetDefaultConfigHome env) _ _
      (getDefaultSnippetsFile_preserves env fs (GetDefaultConfigHome env) _ _ h0)
  refine ⟨?_, hsfne, hsdne, ?_, ?_, ?_, ?_⟩
  · rw [hload]
  · show ed ≠ ""
    exact hedne
  · rw [hfcv]
    exact hfcne
  · exact isNew_false_of_snippetsFile_ne _ hsfne
  · rw [hload]
    rw [Save_writes (populatedConfig env ed) env _ hpre hw]
    exact FS.stat_set_self _ _ _

/-- C4 witness: the sane darwin environment over an existing empty config file. -/
theorem load_empty_file_populates_witness :
    (Load envSane fsConf).1 = Except.ok (populatedConfig envSane "/usr/bin/vi") ∧
    (populatedConfig envSane "/usr/bin/vi").SnippetsFile ≠ "" ∧
    (populatedConfig envSane "/usr/bin/vi").SnippetsDir ≠ "" ∧
    (populatedConfig envSane "/usr/bin/vi").Editor ≠ "" ∧
    (populatedConfig envSane "/usr/bin/vi").FilterCmd ≠ "" ∧
    (populatedConfig envSane "/usr/bin/vi").IsNew = false ∧
    ((Load envSane fsConf).2).stat (configFilePath envSane)
      = some (Entry.file (FileData.json (populatedConfig envSane "/usr/bin/vi"))) :=
  load_empty_file_populates envSane fsConf "/usr/bin/vi" "/bin/fzf"
    rfl rfl rfl rfl (by decide) rfl (by decide) (by decide)

/-- C9: when neither filter-command candidate resolves on PATH,
GetDefaultFilterCmd yields exactly the missing-filter-command sentinel, Load
tolerates it and succeeds, and the returned FilterCmd is the empty string.  (The
sentinel is the only error GetDefaultFilterCmd can produce — see
getDefaultFilterCmd_error_sentinel — so the branch aborting the load on any other
filter-detection error is unreachable.) -/
theorem load_missing_filter_tolerated (env : Env) (fs : FS) (ed : String)
    (hp : env.lookPath DEFAULT_FILTER_CMD_PECO = none)
    (hfz : env.lookPath DEFAULT_FILTER_CMD_FZF = none)
    (h0 : fs.stat (configFilePath env) = some (Entry.file FileData.empty))
    (hsf : (GetDefaultSnippetsFile env fs (GetDefaultConfigHome env)).1
        = Except.ok (snippetsFilePath env))
    (hsd : (GetDefaultSnippetsDir env
          (GetDefaultSnippetsFile env fs (GetDefaultConfigHome env)).2
          (GetDefaultConfigHome env)).1 = Except.ok (snippetsDirPath env))
    (hed : GetDefaultEditor env = Except.ok ed) :
    GetDefaultFilterCmd env = Except.error MissingDefaultFilterCmdError ∧
    (Load env fs).1 = Except.ok (populatedConfig env ed) ∧
    (populatedConfig env ed).FilterCmd = "" := by
  have hfc : GetDefaultFilterCmd env = Except.error MissingDefaultFilterCmdError := by
    simp only [GetDefaultFilterCmd, hfz]
    simp
  unfold configFilePath at h0
  unfold snippetsFilePath at hsf
  unfold snippetsDirPath at hsd
  have hload := Load_new_populates env fs ed h0 hsf hsd hed
  refine ⟨hfc, ?_, ?_⟩
  · rw [hload]
  · show defaultFilterValue env = ""
    unfold defaultFilterValue
    rw [hfc]

/-- C9 witness: only vim on PATH, empty config file: Load succeeds, FilterCmd empty. -/
theorem load_missing_filter_tolerated_witness :
    GetDefaultFilterCmd envNoFilter = Except.error MissingDefaultFilterCmdError ∧
    (Load envNoFilter fsConf).1 = Except.ok (populatedConfig envNoFilter "/usr/bin/vi") ∧
    (populatedConfig envNoFilter "/usr/bin/vi").FilterCmd = "" :=
  load_missing_filter_tolerated envNoFilter fsConf "/usr/bin/vi" rfl rfl rfl rfl rfl rfl

/-- C1 counterexample: with the write to the config file failing, Load still
returns success: the error of the persisting Save is silently discarded
(`config.Save()` without an error check), while the on-disk config file keeps its
old empty content and re-running that Save indeed yields the write error. -/
theorem load_c1_counterexample :
    (Load envWriteFault fsConf).1
      = Except.ok (populatedConfig envWriteFault "/usr/bin/vi") ∧
    ((Load envWriteFault fsConf).2).stat "/h/.corgi/corgi_conf.json"
      = some (Entry.file FileData.empty) ∧
    (Config.Save (populatedConfig envWriteFault "/usr/bin/vi") envWriteFault
        ((Load envWriteFault fsConf).2)).1
      = Except.error (GoError.fsError "write" "/h/.corgi/corgi_conf.json") :=
  ⟨rfl, rfl, rfl⟩

/-- C1 amended: every filesystem error of a step of Load before the final
persisting Save is returned to the caller — an error creating the config file, a
read/parse error of its content, an error creating the snippets file or the
snippets directory, an editor-detection failure, and (structurally) a
non-sentinel filter-command error each abort Load with exactly that error — while
an error of the final `config.Save()` call inside Load is silently discarded:
Load still reports success with the populated Config and the config file on disk
keeps its previous (empty) content. -/
theorem load_error_propagation_and_save_discard (env : Env) (fs : FS) (e : GoError)
    (ed : String) :
    ((GetDefaultConfigFile env fs (GetDefaultConfigHome env)).1 = Except.error e →
      (Load env fs).1 = Except.error e) ∧
    (∀ d, fs.stat (configFilePath env) = some (Entry.file d) →
      LoadJsonDataFromFile fs (configFilePath env) = Except.error e →
      (Load env fs).1 = Except.error e) ∧
    (fs.stat (configFilePath env) = some (Entry.file FileData.empty) →
      (GetDefaultSnippetsFile env fs (GetDefaultConfigHome env)).1 = Except.error e →
      (Load env fs).1 = Except.error e) ∧
    (fs.stat (configFilePath env) = some (Entry.file FileData.empty) →
      (GetDefaultSnippetsFile env fs (GetDefaultConfigHome env)).1
        = Except.ok (snippetsFilePath env) →
      (GetDefaultSnippetsDir env (GetDefaultSnippetsFile env fs (GetDefaultConfigHome env)).2
        (GetDefaultConfigHome env)).1 = Except.error e →
      (Load env fs).1 = Except.error e) ∧
    (fs.stat (configFilePath env) = some (Entry.file FileData.empty) →
      (GetDefaultSnippetsFile env fs (GetDefaultConfigHome env)).1
        = Except.ok (snippetsFilePath env) →
      (GetDefaultSnippetsDir env (GetDefaultSnippetsFile env fs (GetDefaultConfigHome env)).2
        (GetDefaultConfigHome env)).1 = Except.ok (snippetsDirPath env) →
      GetDefaultEditor env = Except.error e →
      (Load env fs).1 = Except.error e) ∧
    (fs.stat (configFilePath env) = some (Entry.file FileData.empty) →
      (GetDefaultSnippetsFile env fs (GetDefaultConfigHome env)).1
        = Except.ok (snippetsFilePath env) →
      (GetDefaultSnippetsDir env (GetDefaultSnippetsFile env fs (GetDefaultConfigHome env)).2
        (GetDefaultConfigHome env)).1 = Except.ok (snippetsDirPath env) →
      GetDefaultEditor env = Except.ok ed →
      GetDefaultFilterCmd env = Except.error e → e ≠ MissingDefaultFilterCmdError →
      (Load env fs).1 = Except.error e) ∧
    (fs.stat (configFilePath env) = some (Entry.file FileData.empty) →
      (GetDefaultSnippetsFile env fs (GetDefaultConfigHome env)).1
        = Except.ok (snippetsFilePath env) →
      (GetDefaultSnippetsDir env (GetDefaultSnippetsFile env fs (GetDefaultConfigHome env)).2
        (GetDefaultConfigHome env)).1 = Except.ok (snippetsDirPath env) →
      GetDefaultEditor env = Except.ok ed →
      configFilePath env ∈ env.writeFaults →
      (Load env fs).1 = Except.ok (populatedConfig env ed) ∧
      ((Load env fs).2).stat (configFilePath env) = some (Entry.file FileData.empty)) := by
  refine ⟨?_, ?_, ?_, ?_, ?_, ?_, ?_⟩
  · intro h
    rcases hg : GetDefaultConfigFile env fs (GetDefaultConfigHome env) with ⟨r, fs1⟩
    rw [hg] at h
    simp at h
    subst h
    simp [Load, hg]
  · intro d hd hlj
    unfold configFilePath at hd hlj
    have hcf := getDefaultConfigFile_of_exists env fs (GetDefaultConfigHome env) hd
    simp only [Load]
    rw [hcf]
    simp [hlj]
  · intro h0 herr
    unfold configFilePath at h0
    have hcf := getDefaultConfigFile_of_exists env fs (GetDefaultConfigHome env) h0
    have hlj : LoadJsonDataFromFile fs (pathJoin (GetDefaultConfigHome env) DEFAULT_CONFIG_FILE)
        = Except.ok Config.zero := by
      unfold LoadJsonDataFromFile
      rw [h0]
    have hz : Config.zero.IsNew = true := rfl
    rcases hSF : GetDefaultSnippetsFile env fs (GetDefaultConfigHome env) with ⟨rsf, fs2⟩
    simp only [hSF] at herr
    subst herr
    simp only [Load]
    rw [hcf]
    simp only [hlj, hz, if_true]
    simp only [hSF]
  · intro h0 hsf herr
    unfold configFilePath at h0
    unfold snippetsFilePath at hsf
    have hcf := getDefaultConfigFile_of_exists env fs (GetDefaultConfigHome env) h0
    have hlj : LoadJsonDataFromFile fs (pathJoin (GetDefaultConfigHome env) DEFAULT_CONFIG_FILE)
        = Except.ok Config.zero := by
      unfold LoadJsonDataFromFile
      rw [h0]
    have hz : Config.zero.IsNew = true := rfl
    rcases hSF : GetDefaultSnippetsFile env fs (GetDefaultConfigHome env) with ⟨rsf, fs2⟩
    simp only [hSF] at hsf herr
    subst hsf
    rcases hSD : GetDefaultSnippetsDir env fs2 (GetDefaultConfigHome env) with ⟨rsd, fs3⟩
    simp only [hSD] at herr
    subst herr
    simp only [Load]
    rw [hcf]
    simp only [hlj, hz, if_true]
    simp only [hSF, hSD]
  · intro h0 hsf hsd hed
    unfold configFilePath at h0
    unfold snippetsFilePath at hsf
    unfold snippetsDirPath at hsd
    have hcf := getDefaultConfigFile_of_exists env fs (GetDefaultConfigHome env) h0
    have hlj : LoadJsonDataFromFile fs (pathJoin (GetDefaultConfigHome env) DEFAULT_CONFIG_FILE)
        = Except.ok Config.zero := by
      unfold LoadJsonDataFromFile
      rw [h0]
    have hz : Config.zero.IsNew = true := rfl
    rcases hSF : GetDefaultSnippetsFile env fs (GetDefaultConfigHome env) with ⟨rsf, fs2⟩
    simp only [hSF] at hsf hsd
    subst hsf
    rcases hSD : GetDefaultSnippetsDir env fs2 (GetDefaultConfigHome env) with ⟨rsd, fs3⟩
    simp only [hSD] at hsd
    subst hsd
    simp only [Load]
    rw [hcf]
    simp only [hlj, hz, if_true]
    simp only [hSF, hSD, hed]
  · intro h0 hsf hsd hed hfc hne
    unfold configFilePath at h0
    unfold snippetsFilePath at hsf
    unfold snippetsDirPath at hsd
    have hcf := getDefaultConfigFile_of_exists env fs (GetDefaultConfigHome env) h0
    have hlj : LoadJsonDataFromFile fs (pathJoin (GetDefaultConfigHome env) DEFAULT_CONFIG_FILE)
        = Except.ok Config.zero := by
      unfold LoadJsonDataFromFile
      rw [h0]
    have hz : Config.zero.IsNew = true := rfl
    rcases hSF : GetDefaultSnippetsFile env fs (GetDefaultConfigHome env) with ⟨rsf, fs2⟩
    simp only [hSF] at hsf hsd
    subst hsf
    rcases hSD : GetDefaultSnippetsDir env fs2 (GetDefaultConfigHome env) with ⟨rsd, fs3⟩
    simp only [hSD] at hsd
    subst hsd
    simp only [Load]
    rw [hcf]
    simp only [hlj, hz, if_true]
    simp only [hSF, hSD, hed, hfc]
    rw [if_pos hne]
  · intro h0 hsf hsd hed hw
    unfold configFilePath at h0 hw ⊢
    unfold snippetsFilePath at hsf
    unfold snippetsDirPath at hsd
    have hload := Load_new_populates env fs ed h0 hsf hsd hed
    have hpre : ((GetDefaultSnippetsDir env
          (GetDefaultSnippetsFile env fs (GetDefaultConfigHome env)).2
          (GetDefaultConfigHome env)).2).stat
          (pathJoin (GetDefaultConfigHome env) DEFAULT_CONFIG_FILE)
        = some (Entry.file FileData.empty) :=
      getDefaultSnippetsDir_preserves env _ (GetDefaultConfigHome env) _ _
        (getDefaultSnippetsFile_preserves env fs (GetDefaultConfigHome env) _ _ h0)
    constructor
    · rw [hload]
    · rw [hload]
      rw [Save_write_fault (populatedConfig env ed) env _ hpre hw]
      exact hpre

/-- C1 witness: an editor-detection failure aborts Load with exactly that error,
while a failing persisting write is discarded: Load reports success and the config
file keeps its old empty content. -/
theorem load_error_propagation_and_save_discard_witness :
    (Load envNoEditor fsConf).1 = Except.error GoError.editorNotFound ∧
    ((Load envWriteFault fsConf).1
        = Except.ok (populatedConfig envWriteFault "/usr/bin/vi") ∧
      ((Load envWriteFault fsConf).2).stat (configFilePath envWriteFault)
        = some (Entry.file FileData.empty)) :=
  ⟨(load_error_propagation_and_save_discard envNoEditor fsConf
      GoError.editorNotFound "").2.2.2.2.1 rfl rfl rfl rfl,
   (load_error_propagation_and_save_discard envWriteFault fsConf
      GoError.jsonParseError "/usr/bin/vi").2.2.2.2.2.2 rfl rfl rfl rfl (by decide)⟩

/-- C5: whenever Load returns an error, the content of an existing config file on
disk after the call is identical to its content before the call (covering the
malformed-JSON case and every failing default-population step, such as a missing
editor with no editor variable set). -/
theorem load_error_preserves_config_file (env : Env) (fs : FS) (d : FileData)
    (e : GoError)
    (hf : fs.stat (configFilePath env) = some (Entry.file d))
    (herr : (Load env fs).1 = Except.error e) :
    ((Load env fs).2).stat (configFilePath env) = some (Entry.file d) := by
  unfold configFilePath at hf ⊢
  have hcf := getDefaultConfigFile_of_exists env fs (GetDefaultConfigHome env) hf
  simp only [Load, hcf] at herr ⊢
  cases d with
  | malformed =>
    have hlj : LoadJsonDataFromFile fs (pathJoin (GetDefaultConfigHome env) DEFAULT_CONFIG_FILE)
        = Except.error GoError.jsonParseError := by
      unfold LoadJsonDataFromFile
      rw [hf]
    simp only [hlj]
    exact hf
  | empty =>
    have hlj : LoadJsonDataFromFile fs (pathJoin (GetDefaultConfigHome env) DEFAULT_CONFIG_FILE)
        = Except.ok Config.zero := by
      unfold LoadJsonDataFromFile
      rw [hf]
    have hz : Config.zero.IsNew = true := rfl
    simp only [hlj, hz, if_true] at herr ⊢
    rcases hSF : GetDefaultSnippetsFile env fs (GetDefaultConfigHome env) with ⟨rsf, fs2⟩
    have h2 : fs2.stat (pathJoin (GetDefaultConfigHome env) DEFAULT_CONFIG_FILE)
        = some (Entry.file FileData.empty) := by
      have hx := getDefaultSnippetsFile_preserves env fs (GetDefaultConfigHome env) _ _ hf
      rw [hSF] at hx
      exact hx
    simp only [hSF] at herr ⊢
    cases rsf with
    | error e2 => exact h2
    | ok sf =>
      rcases hSD : GetDefaultSnippetsDir env fs2 (GetDefaultConfigHome env) with ⟨rsd, fs3⟩
      have h3 : fs3.stat (pathJoin (GetDefaultConfigHome env) DEFAULT_CONFIG_FILE)
          = some (Entry.file FileData.empty) := by
        have hx := getDefaultSnippetsDir_preserves env fs2 (GetDefaultConfigHome env) _ _ h2
        rw [hSD] at hx
        exact hx
      simp only [hSD] at herr ⊢
      cases rsd with
      | error e3 => exact h3
      | ok sd =>
        cases hED : GetDefaultEditor env with
        | error e4 =>
          simp only [hED] at herr ⊢
          exact h3
        | ok ed =>
          simp only [hED] at herr ⊢
          cases hFC : GetDefaultFilterCmd env with
          | ok p =>
            simp only [hFC] at herr
            simp at herr
          | error ef =>
            simp only [hFC] at herr ⊢
            by_cases hne : ef ≠ MissingDefaultFilterCmdError
            · simp only [if_pos hne] at herr ⊢
              exact h3
            · simp only [if_neg hne] at herr
              simp at herr
  | json c =>
    have hlj : LoadJsonDataFromFile fs (pathJoin (GetDefaultConfigHome env) DEFAULT_CONFIG_FILE)
        = Except.ok c := by
      unfold LoadJsonDataFromFile
      rw [hf]
    simp only [hlj] at herr ⊢
    cases hnew : c.IsNew with
    | false =>
      simp only [hnew, Bool.false_eq_true, if_false] at herr
      simp at herr
    | true =>
      simp only [hnew, if_true] at herr ⊢
      rcases hSF : GetDefaultSnippetsFile env fs (GetDefaultConfigHome env) with ⟨rsf, fs2⟩
      have h2 : fs2.stat (pathJoin (GetDefaultConfigHome env) DEFAULT_CONFIG_FILE)
          = some (Entry.file (FileData.json c)) := by
        have hx := getDefaultSnippetsFile_preserves env fs (GetDefaultConfigHome env) _ _ hf
        rw [hSF] at hx
        exact hx
      simp only [hSF] at herr ⊢
      cases rsf with
      | error e2 => exact h2
      | ok sf =>
        rcases hSD : GetDefaultSnippetsDir env fs2 (GetDefaultConfigHome env) with ⟨rsd, fs3⟩
        have h3 : fs3.stat (pathJoin (GetDefaultConfigHome env) DEFAULT_CONFIG_FILE)
            = some (Entry.file (FileData.json c)) := by
          have hx := getDefaultSnippetsDir_preserves env fs2 (GetDefaultConfigHome env) _ _ h2
          rw [hSD] at hx
          exact hx
        simp only [hSD] at herr ⊢
        cases rsd with
        | error e3 => exact h3
        | ok sd =>
          cases hED : GetDefaultEditor env with
          | error e4 =>
            simp only [hED] at herr ⊢
            exact h3
          | ok ed =>
            simp only [hED] at herr ⊢
            cases hFC : GetDefaultFilterCmd env with
            | ok p =>
              simp only [hFC] at herr
              simp at herr
            | error ef =>
              simp only [hFC] at herr ⊢
              by_cases hne : ef ≠ MissingDefaultFilterCmdError
              · simp only [if_pos hne] at herr ⊢
                exact h3
              · simp only [if_neg hne] at herr
                simp at herr

/-- C5 witness: a config file holding malformed JSON in an otherwise sane
environment: Load fails with a parse error and the file content is unchanged. -/
theorem load_error_preserves_config_file_witness :
    ((Load envSane fsConfBad).2).stat (configFilePath envSane)
      = some (Entry.file FileData.malformed) :=
  load_error_preserves_config_file envSane fsConfBad FileData.malformed
    GoError.jsonParseError rfl rfl
